import Mathlib

/-!
# Bitcoin-family transaction signing flow: a shallow embedding

This file embeds the transaction-signing protocol handler of
`src/apps/btc_family/btc_txn.c` (the Cypherock X1 wallet firmware's
Bitcoin-family flow) and proves properties of its phase sequencing,
validation and user-confirmation logic.

Modelling conventions:
* Machine integers (`uint32_t`, `uint64_t`, `pb_size_t`) are `Nat`; no claim
  under study depends on wrap-around, and the single subtraction that can
  underflow (the fee) is modelled exactly as the specification describes it,
  through an explicit failure (`Option`).
* Nanopb byte arrays (fixed-capacity buffer + `size` field) are a `size`
  together with the buffer contents as a `List Nat`; reading the buffer at an
  index is `List.getD`, which is total, like reading a C array inside its
  capacity is.  Reading at an index `≥ size` is well defined in C (the
  capacity is fixed) but reads bytes outside the message's valid length.
* The nanopb request union (`btc_sign_txn_request_t.request`) is modelled as
  a record holding every member next to the `which_request` discriminant; an
  inactive member holds the reinterpretation of whatever bytes the union
  currently holds, which is exactly the C situation.
* External collaborators (transport, UI, wallet lookup, path policy, fee
  policy, hashing/parsing primitives, malloc contents) are supplied by an
  `Env` record, and every observable action of the flow (errors, responses,
  prompts, allocations, phase invocations) is appended to an event trace, so
  temporal claims become statements about that trace.
-/

set_option linter.unusedVariables false

namespace BtcTxn

/-! ## Protocol constants

The nanopb tag values are not under `src/`; only their distinctness and
identity matter to the flow, so they are given symbolic distinct values.
`OP_RETURN` is the standard Bitcoin data-carrier opcode 0x6a (`script.h`). -/

def BTC_SIGN_TXN_REQUEST_INITIATE_TAG : Nat := 1

def BTC_SIGN_TXN_REQUEST_META_TAG : Nat := 2

def BTC_SIGN_TXN_REQUEST_INPUT_TAG : Nat := 3

def BTC_SIGN_TXN_REQUEST_OUTPUT_TAG : Nat := 4

def BTC_SIGN_TXN_REQUEST_SIGNATURE_TAG : Nat := 5

def BTC_SIGN_TXN_RESPONSE_CONFIRMATION_TAG : Nat := 1

def BTC_SIGN_TXN_RESPONSE_META_ACCEPTED_TAG : Nat := 2

def BTC_SIGN_TXN_RESPONSE_INPUT_ACCEPTED_TAG : Nat := 3

def BTC_SIGN_TXN_RESPONSE_OUTPUT_ACCEPTED_TAG : Nat := 4

def BTC_SIGN_TXN_RESPONSE_SIGNATURE_TAG : Nat := 5

def ERROR_COMMON_ERROR_CORRUPT_DATA_TAG : Nat := 1

def ERROR_DATA_FLOW_INVALID_REQUEST : Nat := 1

def ERROR_DATA_FLOW_INVALID_DATA : Nat := 2

def OP_RETURN : Nat := 0x6a

def BTC_SIGN_TXN_STATUS_CONFIRM : Nat := 1

/-! ## Data model (§3 of the spec; the structs of `btc_priv.h` / the pb types) -/

/-- A nanopb bounded byte string: valid length `size` plus the fixed-capacity
buffer contents `bytes` (entries past `size` are whatever the buffer holds). -/
structure ScriptBuf where
  size : Nat
  bytes : List Nat
deriving DecidableEq, Repr, Inhabited

/-- `btc_txn_input_t`: one record of the context's `inputs` array. -/
structure btc_txn_input_t where
  prev_txn_hash : List Nat
  prev_output_index : Nat
  address_index : Nat
  change_index : Nat
  value : Nat
  sequence : Nat
  script_pub_key : ScriptBuf
deriving DecidableEq, Repr, Inhabited

/-- `btc_sign_txn_output_t`: one transaction output. -/
structure btc_sign_txn_output_t where
  value : Nat
  script_pub_key : ScriptBuf
  is_change : Bool
deriving DecidableEq, Repr, Inhabited

/-- `btc_sign_txn_metadata_t`: the transaction shape announced by the host. -/
structure btc_sign_txn_metadata_t where
  sighash : Nat
  input_count : Nat
  output_count : Nat
deriving DecidableEq, Repr, Inhabited

/-- `btc_sign_txn_initiate_request_t`: wallet id and derivation path. -/
structure btc_sign_txn_initiate_request_t where
  wallet_id : Nat
  derivation_path : List Nat
deriving DecidableEq, Repr, Inhabited

/-- The input sub-request: claimed input fields plus the raw bytes of the
previous transaction supposedly creating the spent output. -/
structure btc_sign_txn_input_request_t where
  prev_txn_hash : List Nat
  prev_output_index : Nat
  address_index : Nat
  change_index : Nat
  value : Nat
  sequence : Nat
  script_pub_key : ScriptBuf
  prev_txn : ScriptBuf
deriving DecidableEq, Repr, Inhabited

/-- `btc_sign_txn_request_t`: the tagged request union.  All members are
present; `which_request` names the active one, the rest hold the union's
bytes reinterpreted (as in C). -/
structure btc_sign_txn_request_t where
  which_request : Nat
  initiate : btc_sign_txn_initiate_request_t
  meta : btc_sign_txn_metadata_t
  input : btc_sign_txn_input_request_t
  output : btc_sign_txn_output_t
deriving DecidableEq, Repr, Inhabited

/-- `btc_txn_context_t`: the per-flow aggregate.  `inputs`/`outputs` are
`none` while the C pointers are NULL (unallocated), `some l` once malloc'd,
with `l` the array contents. -/
structure btc_txn_context_t where
  init_info : btc_sign_txn_initiate_request_t
  metadata : btc_sign_txn_metadata_t
  inputs : Option (List btc_txn_input_t)
  outputs : Option (List btc_sign_txn_output_t)
deriving DecidableEq, Repr, Inhabited

/-! ## Observable events -/

/-- The six phases of §4.1. -/
inductive Phase where
  | initPhase
  | metaPhase
  | inputsPhase
  | outputsPhase
  | verifyPhase
  | signPhase
deriving DecidableEq, Repr

/-- What a UI prompt is about.  Address/amount formatting is an external UI
primitive, so the event carries the semantic content being shown. -/
inductive UIItem where
  | sendPrompt
  | receiverAddr (idx : Nat) (script : ScriptBuf)
  | receiverValue (idx : Nat) (value : Nat)
  | highFeeWarning
  | feeDisplay (amount : Nat)
deriving DecidableEq, Repr

/-- An observable action of the flow, in chronological order. -/
inductive Event where
  | invoke (ph : Phase)
  | sendError (tag code : Nat)
  | sendResponse (which_response : Nat)
  | confirm (item : UIItem) (accepted : Bool)
  | scroll (item : UIItem) (accepted : Bool)
  | setFlowStatus (status : Nat)
  | allocInputs (count : Nat)
  | allocOutputs (count : Nat)
  | delayScreen
deriving DecidableEq, Repr

/-! ## The environment: external collaborators (§6) -/

/-- External collaborators and nondeterminism resolved up front:
host messages, user decisions (indexed by prompt number), wallet lookup,
path policy, fee policy, the previous-transaction parsing/hash primitives,
and the contents malloc happens to return (the arrays are not zeroed). -/
structure Env where
  msgs : List (Option btc_sign_txn_request_t)
  user : Nat → Bool
  wallet_found : Nat → Bool
  btc_derivation_path_guard : List Nat → Bool
  get_transaction_fee_threshold : btc_txn_context_t → Nat
  parse_outputs : List Nat → List (Nat × ScriptBuf)
  hash256d : List Nat → List Nat
  junk_input : Nat → btc_txn_input_t
  junk_output : Nat → btc_sign_txn_output_t

/-- The mutable state threaded through the flow: the decoded-query buffer
(`btc_query_t *query`), the messages not yet received, how many prompts have
been consumed, and the trace of observable events so far. -/
structure FlowState where
  query : btc_sign_txn_request_t
  msgs : List (Option btc_sign_txn_request_t)
  promptIdx : Nat
  trace : List Event

/-! ## Primitive operations -/

def emit (st : FlowState) (e : Event) : FlowState :=
  { st with trace := st.trace ++ [e] }

/-- `btc_send_error`: report a (category, subcode) error to the host. -/
def btc_send_error (st : FlowState) (tag code : Nat) : FlowState :=
  emit st (Event.sendError tag code)

/-- `send_response` (btc_txn.c): reply with an empty response of the given
response discriminant. -/
def send_response (st : FlowState) (which_response : Nat) : FlowState :=
  emit st (Event.sendResponse which_response)

/-- `btc_get_query`: await and decode the next host query into the query
buffer.  On failure the buffer keeps its previous (stale) contents. -/
def btc_get_query (st : FlowState) : Bool × FlowState :=
  match st.msgs with
  | [] => (false, st)
  | none :: rest => (false, { st with msgs := rest })
  | some q :: rest => (true, { st with query := q, msgs := rest })

/-- `core_confirmation`: blocking accept/reject prompt. -/
def core_confirmation (env : Env) (st : FlowState) (item : UIItem) :
    Bool × FlowState :=
  let d := env.user st.promptIdx
  (d, emit { st with promptIdx := st.promptIdx + 1 } (Event.confirm item d))

/-- `core_scroll_page`: blocking scrolling display with accept/reject. -/
def core_scroll_page (env : Env) (st : FlowState) (item : UIItem) :
    Bool × FlowState :=
  let d := env.user st.promptIdx
  (d, emit { st with promptIdx := st.promptIdx + 1 } (Event.scroll item d))

/-- Modelled from the spec: `btc_verify_input` (btc_txn_helpers, not under
`src/`).  §4.7: parse the raw previous-transaction bytes sufficiently to
locate the output at the claimed index, compute the double hash of the whole
byte string, compare it with the claimed 32-byte hash; on match extract that
output's value and locking script into the bound record, on mismatch or
out-of-range index fail.  The parser and hash are the external primitives
`env.parse_outputs` / `env.hash256d`; the claimed index and hash are read
from the record the C caller passes in. -/
def btc_verify_input (env : Env) (raw : List Nat) (input : btc_txn_input_t) :
    Option btc_txn_input_t :=
  let outs := env.parse_outputs raw
  if input.prev_output_index < outs.length ∧
      env.hash256d raw = input.prev_txn_hash then
    let o := outs.getD input.prev_output_index (0, default)
    some { input with value := o.1, script_pub_key := o.2 }
  else
    none

/-- Modelled from the spec: `btc_get_txn_fee` (btc_helpers, not under
`src/`).  §4.6: `fee = sum(inputs.value) − sum(outputs.value)`; if this
underflows (overspend) the computation fails. -/
def btc_get_txn_fee (ctx : btc_txn_context_t) : Option Nat :=
  let inSum := ((ctx.inputs.getD []).map btc_txn_input_t.value).sum
  let outSum := ((ctx.outputs.getD []).map btc_sign_txn_output_t.value).sum
  if inSum < outSum then none else some (inSum - outSum)

/-! ## The phase functions of btc_txn.c -/

/-- `check_which_request` (btc_txn.c:227): if the query's discriminant is not
the expected one, send CORRUPT_DATA/INVALID_REQUEST and fail. -/
def check_which_request (st : FlowState) (which_request : Nat) :
    Bool × FlowState :=
  if which_request ≠ st.query.which_request then
    (false, btc_send_error st ERROR_COMMON_ERROR_CORRUPT_DATA_TAG
      ERROR_DATA_FLOW_INVALID_REQUEST)
  else
    (true, st)

/-- `validate_request_data` (btc_txn.c:238): derivation-path policy check;
on failure send CORRUPT_DATA/INVALID_DATA. -/
def validate_request_data (env : Env) (st : FlowState) : Bool × FlowState :=
  if env.btc_derivation_path_guard st.query.initiate.derivation_path then
    (true, st)
  else
    (false, btc_send_error st ERROR_COMMON_ERROR_CORRUPT_DATA_TAG
      ERROR_DATA_FLOW_INVALID_DATA)

/-- `handle_initiate_query` (btc_txn.c:256): discriminant check, path check,
wallet lookup, blocking send-prompt; on acceptance set the flow status, copy
`init_info` into the context and reply confirmation-accepted. -/
def handle_initiate_query (env : Env) (st : FlowState)
    (ctx : btc_txn_context_t) : Bool × FlowState × btc_txn_context_t :=
  let c1 := check_which_request st BTC_SIGN_TXN_REQUEST_INITIATE_TAG
  if !c1.1 then (false, c1.2, ctx) else
  let c2 := validate_request_data env c1.2
  if !c2.1 then (false, c2.2, ctx) else
  if !env.wallet_found c2.2.query.initiate.wallet_id then (false, c2.2, ctx)
  else
  let c3 := core_confirmation env c2.2 UIItem.sendPrompt
  if !c3.1 then (false, c3.2, ctx) else
  let st4 := emit c3.2 (Event.setFlowStatus BTC_SIGN_TXN_STATUS_CONFIRM)
  let ctx2 := { ctx with init_info := st4.query.initiate }
  (true, send_response st4 BTC_SIGN_TXN_RESPONSE_CONFIRMATION_TAG, ctx2)

/-- `fetch_transaction_meta` (btc_txn.c:283): receive the META sub-request
(`||` short-circuit: the discriminant is checked only after a successful
receive), validate sighash and nonzero counts (CORRUPT_DATA/INVALID_DATA
otherwise, with no allocation), then copy the metadata, allocate the
inputs/outputs arrays sized to the declared counts (malloc'd, not zeroed)
and reply meta-accepted. -/
def fetch_transaction_meta (env : Env) (st : FlowState)
    (ctx : btc_txn_context_t) : Bool × FlowState × btc_txn_context_t :=
  let g := btc_get_query st
  if !g.1 then (false, g.2, ctx) else
  let c := check_which_request g.2 BTC_SIGN_TXN_REQUEST_META_TAG
  if !c.1 then (false, c.2, ctx) else
  let st2 := c.2
  if st2.query.meta.sighash ≠ 0x00000001 ∨ st2.query.meta.input_count = 0 ∨
      st2.query.meta.output_count = 0 then
    (false, btc_send_error st2 ERROR_COMMON_ERROR_CORRUPT_DATA_TAG
      ERROR_DATA_FLOW_INVALID_DATA, ctx)
  else
    let ctx2 := { ctx with metadata := st2.query.meta }
    let ctx3 := { ctx2 with
      inputs := some ((List.range ctx2.metadata.input_count).map
        env.junk_input),
      outputs := some ((List.range ctx2.metadata.output_count).map
        env.junk_output) }
    let st3 := emit st2 (Event.allocInputs ctx2.metadata.input_count)
    let st4 := emit st3 (Event.allocOutputs ctx2.metadata.output_count)
    (true, send_response st4 BTC_SIGN_TXN_RESPONSE_META_ACCEPTED_TAG, ctx3)

/-- One round of the INPUTS loop (btc_txn.c:319-360).  The C condition is
`if (!btc_get_query(...) && !check_which_request(...)) return false;` —
because of the `&&`, the discriminant is checked only when the receive
already failed, and the round proceeds whenever the receive succeeds (with
any discriminant) or the stale query's discriminant happens to match.
On a passed gate: verify the previous transaction against the (malloc'd,
possibly junk) record, then clone the host-claimed fields over the record
(`memcpy` copies `script_pub_key.size` bytes; the rest of the capacity keeps
what the verifier left), and reply input-accepted. -/
def fetch_valid_input_round (env : Env) (st : FlowState)
    (ctx : btc_txn_context_t) (idx : Nat) :
    Bool × FlowState × btc_txn_context_t :=
  let g := btc_get_query st
  let gate :=
    if g.1 then (true, g.2)
    else check_which_request g.2 BTC_SIGN_TXN_REQUEST_INPUT_TAG
  if !gate.1 then (false, gate.2, ctx) else
  let st2 := gate.2
  let raw := st2.query.input.prev_txn.bytes.take st2.query.input.prev_txn.size
  let record := (ctx.inputs.getD []).getD idx default
  match btc_verify_input env raw record with
  | none =>
    (false, btc_send_error st2 ERROR_COMMON_ERROR_CORRUPT_DATA_TAG
      ERROR_DATA_FLOW_INVALID_DATA, ctx)
  | some verified =>
    let q := st2.query.input
    let input : btc_txn_input_t := {
      prev_txn_hash := q.prev_txn_hash
      prev_output_index := q.prev_output_index
      address_index := q.address_index
      change_index := q.change_index
      value := q.value
      sequence := q.sequence
      script_pub_key := {
        size := q.script_pub_key.size
        bytes := q.script_pub_key.bytes.take q.script_pub_key.size ++
          verified.script_pub_key.bytes.drop q.script_pub_key.size } }
    let ctx2 := { ctx with
      inputs := some ((ctx.inputs.getD []).set idx input) }
    (true, send_response st2 BTC_SIGN_TXN_RESPONSE_INPUT_ACCEPTED_TAG, ctx2)

/-- The INPUTS loop over the declared indices. -/
def fetch_valid_input_loop (env : Env) :
    List Nat → FlowState → btc_txn_context_t →
    Bool × FlowState × btc_txn_context_t
  | [], st, ctx => (true, st, ctx)
  | idx :: rest, st, ctx =>
    match fetch_valid_input_round env st ctx idx with
    | (false, st2, ctx2) => (false, st2, ctx2)
    | (true, st2, ctx2) => fetch_valid_input_loop env rest st2 ctx2

/-- `fetch_valid_input` (btc_txn.c:316). -/
def fetch_valid_input (env : Env) (st : FlowState) (ctx : btc_txn_context_t) :
    Bool × FlowState × btc_txn_context_t :=
  fetch_valid_input_loop env (List.range ctx.metadata.input_count) st ctx

/-- One round of the OUTPUTS loop (btc_txn.c:368-388), with the same
`&&`-gated receive as the INPUTS loop.  On a passed gate: copy the output
record verbatim, update the running all-zero-value flag, reject
(CORRUPT_DATA/INVALID_DATA) if byte 0 of the script buffer is OP_RETURN and
the value is nonzero — the read does not consult `script_pub_key.size` —
otherwise reply with the accepted response (the source sends
`INPUT_ACCEPTED` here). -/
def fetch_valid_output_round (env : Env) (st : FlowState)
    (ctx : btc_txn_context_t) (zero_value : Bool) (idx : Nat) :
    Bool × FlowState × btc_txn_context_t × Bool :=
  let g := btc_get_query st
  let gate :=
    if g.1 then (true, g.2)
    else check_which_request g.2 BTC_SIGN_TXN_REQUEST_OUTPUT_TAG
  if !gate.1 then (false, gate.2, ctx, zero_value) else
  let st2 := gate.2
  let output := st2.query.output
  let ctx2 := { ctx with
    outputs := some ((ctx.outputs.getD []).set idx output) }
  let zv := if output.value ≠ 0 then false else zero_value
  if output.script_pub_key.bytes.getD 0 0 = OP_RETURN ∧ output.value ≠ 0 then
    (false, btc_send_error st2 ERROR_COMMON_ERROR_CORRUPT_DATA_TAG
      ERROR_DATA_FLOW_INVALID_DATA, ctx2, zv)
  else
    (true, send_response st2 BTC_SIGN_TXN_RESPONSE_INPUT_ACCEPTED_TAG,
      ctx2, zv)

/-- The OUTPUTS loop over the declared indices, threading the
all-zero-value flag. -/
def fetch_valid_output_loop (env : Env) :
    List Nat → FlowState → btc_txn_context_t → Bool →
    Bool × FlowState × btc_txn_context_t × Bool
  | [], st, ctx, z => (true, st, ctx, z)
  | idx :: rest, st, ctx, z =>
    match fetch_valid_output_round env st ctx z idx with
    | (false, st2, ctx2, z2) => (false, st2, ctx2, z2)
    | (true, st2, ctx2, z2) => fetch_valid_output_loop env rest st2 ctx2 z2

/-- `fetch_valid_output` (btc_txn.c:364): run the loop, then reject
(CORRUPT_DATA/INVALID_DATA) if every received output had zero value. -/
def fetch_valid_output (env : Env) (st : FlowState)
    (ctx : btc_txn_context_t) : Bool × FlowState × btc_txn_context_t :=
  match fetch_valid_output_loop env (List.range ctx.metadata.output_count)
      st ctx true with
  | (false, st2, ctx2, _) => (false, st2, ctx2)
  | (true, st2, ctx2, z) =>
    if z then
      (false, btc_send_error st2 ERROR_COMMON_ERROR_CORRUPT_DATA_TAG
        ERROR_DATA_FLOW_INVALID_DATA, ctx2)
    else
      (true, st2, ctx2)

/-- The C read `btc_txn_context->outputs[idx]`. -/
def output_at (ctx : btc_txn_context_t) (idx : Nat) : btc_sign_txn_output_t :=
  (ctx.outputs.getD []).getD idx default

/-- The receiver-display loop of `get_user_verification`
(btc_txn.c:403-419): change outputs are skipped; for the rest the formatted
address then the formatted amount are shown on scrolling pages, and a
rejection of either returns failure at once. -/
def show_outputs_loop (env : Env) (ctx : btc_txn_context_t) :
    List Nat → FlowState → Bool × FlowState
  | [], st => (true, st)
  | idx :: rest, st =>
    let output := output_at ctx idx
    if output.is_change then
      show_outputs_loop env ctx rest st
    else
      let r1 := core_scroll_page env st
        (UIItem.receiverAddr (idx + 1) output.script_pub_key)
      if !r1.1 then (false, r1.2) else
      let r2 := core_scroll_page env r1.2
        (UIItem.receiverValue (idx + 1) output.value)
      if !r2.1 then (false, r2.2) else
      show_outputs_loop env ctx rest r2.2

/-- The fee tail of `get_user_verification` (btc_txn.c:421-443): compute the
fee (CORRUPT_DATA/INVALID_DATA on overspend), show the high-fee warning only
when the fee exceeds the policy ceiling (declining it fails), then always
show the fee itself for confirmation (declining fails). -/
def verify_fee (env : Env) (st : FlowState) (ctx : btc_txn_context_t) :
    Bool × FlowState :=
  let max_fee := env.get_transaction_fee_threshold ctx
  match btc_get_txn_fee ctx with
  | none =>
    (false, btc_send_error st ERROR_COMMON_ERROR_CORRUPT_DATA_TAG
      ERROR_DATA_FLOW_INVALID_DATA)
  | some fee_in_satoshi =>
    let warn :=
      if fee_in_satoshi > max_fee then
        core_confirmation env st UIItem.highFeeWarning
      else (true, st)
    if !warn.1 then (false, warn.2) else
    let r := core_scroll_page env warn.2 (UIItem.feeDisplay fee_in_satoshi)
    if !r.1 then (false, r.2) else
    (true, r.2)

/-- `get_user_verification` (btc_txn.c:398): the receiver-display loop
followed by the fee checks. -/
def get_user_verification (env : Env) (st : FlowState)
    (ctx : btc_txn_context_t) : Bool × FlowState :=
  match show_outputs_loop env ctx (List.range ctx.metadata.output_count) st
      with
  | (false, st2) => (false, st2)
  | (true, st2) => verify_fee env st2 ctx

/-- `sign_input_utxo` (btc_txn.c:446): receive the SIGNATURE sub-request
(`||` short-circuit), then — the signing body being an unimplemented TODO —
report failure unconditionally. -/
def sign_input_utxo (env : Env) (st : FlowState) : Bool × FlowState :=
  let g := btc_get_query st
  if !g.1 then (false, g.2) else
  let c := check_which_request g.2 BTC_SIGN_TXN_REQUEST_SIGNATURE_TAG
  if !c.1 then (false, c.2) else
  (false, c.2)

/-- Freeing the context arrays on exit (btc_txn.c:470-479). -/
def flow_cleanup (st : FlowState) (ctx : btc_txn_context_t) :
    FlowState × btc_txn_context_t :=
  (st, { ctx with inputs := none, outputs := none })

/-- `btc_sign_transaction` (btc_txn.c:460): allocate and zero the context,
then run
`if (!handle_initiate_query(query) && !fetch_transaction_meta(query) &&
!fetch_valid_input(query) && !fetch_valid_output(query) &&
!get_user_verification() && !sign_input_utxo(query)) delay_scr_init(...);`.
With C short-circuit evaluation this invokes each phase exactly when every
earlier phase returned failure, stops the chain at the first phase that
succeeds, and shows the resync notice only when all six phases failed;
the context is freed on every exit path. -/
def btc_sign_transaction (env : Env) (q0 : btc_sign_txn_request_t) :
    FlowState × btc_txn_context_t :=
  let st0 : FlowState :=
    { query := q0, msgs := env.msgs, promptIdx := 0, trace := [] }
  let ctx0 : btc_txn_context_t :=
    { init_info := default, metadata := ⟨0, 0, 0⟩, inputs := none,
      outputs := none }
  let st1 := emit st0 (Event.invoke Phase.initPhase)
  let r1 := handle_initiate_query env st1 ctx0
  if r1.1 then flow_cleanup r1.2.1 r1.2.2 else
  let st2 := emit r1.2.1 (Event.invoke Phase.metaPhase)
  let r2 := fetch_transaction_meta env st2 r1.2.2
  if r2.1 then flow_cleanup r2.2.1 r2.2.2 else
  let st3 := emit r2.2.1 (Event.invoke Phase.inputsPhase)
  let r3 := fetch_valid_input env st3 r2.2.2
  if r3.1 then flow_cleanup r3.2.1 r3.2.2 else
  let st4 := emit r3.2.1 (Event.invoke Phase.outputsPhase)
  let r4 := fetch_valid_output env st4 r3.2.2
  if r4.1 then flow_cleanup r4.2.1 r4.2.2 else
  let st5 := emit r4.2.1 (Event.invoke Phase.verifyPhase)
  let r5 := get_user_verification env st5 r4.2.2
  if r5.1 then flow_cleanup r5.2 r4.2.2 else
  let st6 := emit r5.2 (Event.invoke Phase.signPhase)
  let r6 := sign_input_utxo env st6
  if r6.1 then flow_cleanup r6.2 r4.2.2 else
  flow_cleanup (emit r6.2 Event.delayScreen) r4.2.2

/-! ## Concrete fixtures

A baseline environment (everything accepts/succeeds, no messages) and a few
concrete queries, used to evaluate the flow on explicit runs. -/

def baseEnv : Env :=
  { msgs := []
    user := fun _ => true
    wallet_found := fun _ => true
    btc_derivation_path_guard := fun _ => true
    get_transaction_fee_threshold := fun _ => 1000
    parse_outputs := fun _ => []
    hash256d := fun _ => List.replicate 32 0
    junk_input := fun _ => default
    junk_output := fun _ => default }

/-- A well-formed initiate query. -/
def initQ : btc_sign_txn_request_t :=
  { which_request := BTC_SIGN_TXN_REQUEST_INITIATE_TAG
    initiate := ⟨7, [44, 0, 0]⟩
    meta := default
    input := default
    output := default }

/-- A well-formed metadata query: SIGHASH_ALL, one input, one output. -/
def metaQ : btc_sign_txn_request_t :=
  { which_request := BTC_SIGN_TXN_REQUEST_META_TAG
    initiate := default
    meta := ⟨1, 1, 1⟩
    input := default
    output := default }

/-- Raw previous-transaction bytes supplied by the host for the C2/C3 runs. -/
def prevTxnRaw : ScriptBuf := ⟨4, [9, 9, 9, 9]⟩

/-- The double hash the environment assigns to those bytes. -/
def hashW : List Nat := List.replicate 32 7

/-- The locking script the previous transaction's output 0 actually carries. -/
def extractedScript : ScriptBuf := ⟨25, List.replicate 25 3⟩

/-- Contents malloc happens to leave in the inputs array: the claimed index
and hash stored there make the (verify-before-clone) binding succeed. -/
def junkRecord : btc_txn_input_t :=
  { (default : btc_txn_input_t) with
    prev_output_index := 0
    prev_txn_hash := hashW }

/-- An input sub-request whose claimed value (999) and claimed script differ
from the value (100) and script the previous transaction actually assigns to
the spent output. -/
def inputQ : btc_sign_txn_request_t :=
  { which_request := BTC_SIGN_TXN_REQUEST_INPUT_TAG
    initiate := default
    meta := default
    input :=
      { prev_txn_hash := hashW
        prev_output_index := 0
        address_index := 0
        change_index := 0
        value := 999
        sequence := 4294967295
        script_pub_key := ⟨2, [170, 187]⟩
        prev_txn := prevTxnRaw }
    output := default }

/-- Environment for the C2 run: the previous transaction parses to a single
output of value 100 with `extractedScript`, and its double hash is `hashW`. -/
def envC2 : Env :=
  { baseEnv with
    msgs := [some inputQ]
    parse_outputs := fun _ => [(100, extractedScript)]
    hash256d := fun _ => hashW
    junk_input := fun _ => junkRecord }

def stC2 : FlowState :=
  { query := initQ, msgs := envC2.msgs, promptIdx := 0, trace := [] }

def ctxC2 : btc_txn_context_t :=
  { init_info := default
    metadata := ⟨1, 1, 1⟩
    inputs := some [junkRecord]
    outputs := some [default] }

/-- Environment for the C1 run: the user declines the first prompt (the
initial wallet-action confirmation) and the host has a valid META request
queued. -/
def envC1 : Env :=
  { baseEnv with user := fun _ => false, msgs := [some metaQ] }

/-- A copy of `inputQ` whose discriminant is the OUTPUT tag, so the round
does not deliver an input sub-request. -/
def wrongTagInputQ : btc_sign_txn_request_t :=
  { inputQ with which_request := BTC_SIGN_TXN_REQUEST_OUTPUT_TAG }

def envC3 : Env := { envC2 with msgs := [some wrongTagInputQ] }

def stC3 : FlowState :=
  { query := initQ, msgs := envC3.msgs, promptIdx := 0, trace := [] }

/-- A query carrying the INPUT discriminant whose output union member reads
as a plain nonzero-value output. -/
def wrongTagOutputQ : btc_sign_txn_request_t :=
  { which_request := BTC_SIGN_TXN_REQUEST_INPUT_TAG
    initiate := default
    meta := default
    input := default
    output := { value := 5, script_pub_key := ⟨3, [1, 2, 3]⟩,
                is_change := false } }

def envC5 : Env := { baseEnv with msgs := [some wrongTagOutputQ] }

def stC5 : FlowState :=
  { query := initQ, msgs := envC5.msgs, promptIdx := 0, trace := [] }

def ctxC5 : btc_txn_context_t :=
  { init_info := default
    metadata := ⟨1, 1, 1⟩
    inputs := some [default]
    outputs := some [default] }

/-- An output sub-request with declared script length 0 whose buffer happens
to hold OP_RETURN at byte 0, carrying nonzero value. -/
def opReturnZeroLenQ : btc_sign_txn_request_t :=
  { which_request := BTC_SIGN_TXN_REQUEST_OUTPUT_TAG
    initiate := default
    meta := default
    input := default
    output := { value := 1, script_pub_key := ⟨0, [106]⟩,
                is_change := false } }

/-- The same output sub-request except byte 0 of the buffer — a byte outside
the script's declared length — differs. -/
def plainZeroLenQ : btc_sign_txn_request_t :=
  { opReturnZeroLenQ with
    output := { value := 1, script_pub_key := ⟨0, [0]⟩,
                is_change := false } }

def envC10a : Env := { baseEnv with msgs := [some opReturnZeroLenQ] }

def envC10b : Env := { baseEnv with msgs := [some plainZeroLenQ] }

def stC10a : FlowState :=
  { query := initQ, msgs := envC10a.msgs, promptIdx := 0, trace := [] }

def stC10b : FlowState :=
  { query := initQ, msgs := envC10b.msgs, promptIdx := 0, trace := [] }

def ctxC10 : btc_txn_context_t :=
  { init_info := default
    metadata := ⟨1, 1, 1⟩
    inputs := some [default]
    outputs := some [default] }

/-- A metadata query with the unsupported sighash 0. -/
def badMetaQ : btc_sign_txn_request_t := { metaQ with meta := ⟨0, 1, 1⟩ }

/-- A zeroed context, as `btc_sign_transaction` creates it. -/
def ctxZero : btc_txn_context_t := ⟨default, ⟨0, 0, 0⟩, none, none⟩

/-- An overspending context: one input worth 50, one output worth 60
(scenario 6 of the spec), the output marked change so no display happens. -/
def ctxOverspend : btc_txn_context_t :=
  { init_info := default
    metadata := ⟨1, 1, 1⟩
    inputs := some [{ (default : btc_txn_input_t) with value := 50 }]
    outputs := some [⟨60, ⟨1, [0]⟩, true⟩] }

def stEmpty : FlowState :=
  { query := initQ, msgs := [], promptIdx := 0, trace := [] }

/-- A fee policy whose ceiling is 10 satoshi. -/
def envHighFee : Env :=
  { baseEnv with get_transaction_fee_threshold := fun _ => 10 }

/-- A context whose fee is 100 (input 200, change output 100). -/
def ctxFee : btc_txn_context_t :=
  { init_info := default
    metadata := ⟨1, 1, 1⟩
    inputs := some [{ (default : btc_txn_input_t) with value := 200 }]
    outputs := some [⟨100, ⟨1, [0]⟩, true⟩] }

/-- Scenario 1 of the spec: input 100000; output 1 pays 90000 to a
receiver, output 2 returns 9000 as change; fee 1000 equals the ceiling. -/
def ctxShow : btc_txn_context_t :=
  { init_info := default
    metadata := ⟨1, 1, 2⟩
    inputs := some [{ (default : btc_txn_input_t) with value := 100000 }]
    outputs := some [⟨90000, ⟨25, List.replicate 25 3⟩, false⟩,
      ⟨9000, ⟨22, List.replicate 22 4⟩, true⟩] }

/-- The trace contains no signature response. -/
def no_sig_response (tr : List Event) : Prop :=
  Event.sendResponse BTC_SIGN_TXN_RESPONSE_SIGNATURE_TAG ∉ tr

/-! ## Claim theorems -/

/-- C1.  The claim says the phases of `btc_sign_transaction` run strictly in
order with any failure aborting the whole flow, so that after the user
declines the initial wallet confirmation, `fetch_transaction_meta` is never
invoked and the inputs/outputs buffers are never allocated.  The code
instead joins the phases as `!h() && !m() && ...`, which continues into the
next phase exactly when the previous one failed: on the concrete run below,
the user declines the initial confirmation, yet the META phase is invoked
and both buffers are allocated. -/
theorem declined_init_still_reaches_meta_phase :
    Event.confirm UIItem.sendPrompt false ∈
      (btc_sign_transaction envC1 initQ).1.trace ∧
    Event.invoke Phase.metaPhase ∈
      (btc_sign_transaction envC1 initQ).1.trace ∧
    Event.allocInputs 1 ∈ (btc_sign_transaction envC1 initQ).1.trace ∧
    Event.allocOutputs 1 ∈ (btc_sign_transaction envC1 initQ).1.trace := by
  decide

/-- C2.  The claim says the value and script stored in the bound Input
record are the ones the Previous-Transaction Verifier extracted from the raw
previous-transaction bytes, not the host's claims.  On the concrete run
below the verifier extracts value 100 and `extractedScript` from the raw
bytes, yet the round succeeds with the record holding the host-claimed
value 999 and the host-claimed 2-byte script, because the clone at
btc_txn.c:346-356 overwrites the record after verification. -/
theorem bound_input_keeps_host_claimed_value :
    (fetch_valid_input envC2 stC2 ctxC2).1 = true ∧
    (envC2.parse_outputs (prevTxnRaw.bytes.take prevTxnRaw.size)).getD 0
        (0, default) = (100, extractedScript) ∧
    (((fetch_valid_input envC2 stC2 ctxC2).2.2.inputs.getD []).getD 0
        default).value = 999 ∧
    (((fetch_valid_input envC2 stC2 ctxC2).2.2.inputs.getD []).getD 0
        default).script_pub_key.size = 2 ∧
    ((((fetch_valid_input envC2 stC2 ctxC2).2.2.inputs.getD []).getD 0
        default).script_pub_key.bytes.take 2) = [170, 187] := by
  decide

/-- C3.  The claim says every round of every phase aborts with a
corrupt-data/invalid-request error when the received discriminant does not
match the phase, in particular in the INPUTS and OUTPUTS loops.  In those
loops the gate is `!btc_get_query(...) && !check_which_request(...)`: after
a successful receive the discriminant is never checked.  On the concrete
INPUTS round below the received query carries the OUTPUT discriminant, yet
the phase processes the payload and succeeds, its only emitted event the
input-accepted response. -/
theorem input_round_ignores_wrong_discriminant :
    (wrongTagInputQ.which_request == BTC_SIGN_TXN_REQUEST_INPUT_TAG)
      = false ∧
    (fetch_valid_input envC3 stC3 ctxC2).1 = true ∧
    (fetch_valid_input envC3 stC3 ctxC2).2.1.trace =
      [Event.sendResponse BTC_SIGN_TXN_RESPONSE_INPUT_ACCEPTED_TAG] := by
  decide

/-- C5.  The claim says `fetch_valid_output` succeeds only if every round
delivered a well-formed output sub-request (besides the two value checks).
Because the round gate is `!btc_get_query(...) && !check_which_request(...)`,
a successfully received query with the INPUT discriminant is processed as if
it were an output: the concrete run below succeeds although its single round
did not deliver an output sub-request. -/
theorem output_phase_succeeds_without_output_request :
    (wrongTagOutputQ.which_request == BTC_SIGN_TXN_REQUEST_OUTPUT_TAG)
      = false ∧
    (fetch_valid_output envC5 stC5 ctxC5).1 = true ∧
    (fetch_valid_output envC5 stC5 ctxC5).2.1.trace =
      [Event.sendResponse BTC_SIGN_TXN_RESPONSE_INPUT_ACCEPTED_TAG] := by
  decide

/-- C10.  The data-carrier check at btc_txn.c:380 reads byte 0 of the
received output's script buffer without checking that the declared script
length is at least 1: two output sub-requests that agree on the value, the
change flag, the declared script length 0 and every byte inside that length,
but differ at buffer byte 0 — a byte outside the script's valid length —
drive `fetch_valid_output` to different results (rejection with
CORRUPT_DATA/INVALID_DATA versus acceptance). -/
theorem output_check_reads_byte_outside_script_length :
    opReturnZeroLenQ.output.script_pub_key.size = 0 ∧
    plainZeroLenQ.output.script_pub_key.size = 0 ∧
    opReturnZeroLenQ.output.value = plainZeroLenQ.output.value ∧
    opReturnZeroLenQ.output.is_change = plainZeroLenQ.output.is_change ∧
    opReturnZeroLenQ.output.script_pub_key.bytes.take
        opReturnZeroLenQ.output.script_pub_key.size =
      plainZeroLenQ.output.script_pub_key.bytes.take
        plainZeroLenQ.output.script_pub_key.size ∧
    (fetch_valid_output envC10a stC10a ctxC10).1 = false ∧
    Event.sendError ERROR_COMMON_ERROR_CORRUPT_DATA_TAG
        ERROR_DATA_FLOW_INVALID_DATA ∈
      (fetch_valid_output envC10a stC10a ctxC10).2.1.trace ∧
    (fetch_valid_output envC10b stC10b ctxC10).1 = true := by
  decide

/-- C4.  When the next host message is a META request:
if its sighash is not the single supported value SIGHASH_ALL (0x00000001) or
either declared count is zero, `fetch_transaction_meta` fails, sends
CORRUPT_DATA/INVALID_DATA, leaves the context untouched and allocates
nothing; otherwise it copies the metadata into the context, allocates the
inputs and outputs arrays sized exactly to the declared counts, replies
meta-accepted and succeeds. -/
theorem fetch_transaction_meta_spec (env : Env) (ctx : btc_txn_context_t)
    (q : btc_sign_txn_request_t) (rest : List (Option btc_sign_txn_request_t))
    (q0 : btc_sign_txn_request_t) (pidx : Nat) (tr : List Event)
    (ht : q.which_request = BTC_SIGN_TXN_REQUEST_META_TAG) :
    ((q.meta.sighash ≠ 1 ∨ q.meta.input_count = 0 ∨ q.meta.output_count = 0) →
      (fetch_transaction_meta env ⟨q0, some q :: rest, pidx, tr⟩ ctx).1
          = false ∧
      (fetch_transaction_meta env ⟨q0, some q :: rest, pidx, tr⟩ ctx).2.2
          = ctx ∧
      (fetch_transaction_meta env ⟨q0, some q :: rest, pidx, tr⟩
          ctx).2.1.trace =
        tr ++ [Event.sendError ERROR_COMMON_ERROR_CORRUPT_DATA_TAG
          ERROR_DATA_FLOW_INVALID_DATA]) ∧
    (q.meta.sighash = 1 → q.meta.input_count ≠ 0 → q.meta.output_count ≠ 0 →
      (fetch_transaction_meta env ⟨q0, some q :: rest, pidx, tr⟩ ctx).1
          = true ∧
      (fetch_transaction_meta env ⟨q0, some q :: rest, pidx, tr⟩
          ctx).2.2.metadata = q.meta ∧
      ((fetch_transaction_meta env ⟨q0, some q :: rest, pidx, tr⟩
          ctx).2.2.inputs.getD []).length = q.meta.input_count ∧
      ((fetch_transaction_meta env ⟨q0, some q :: rest, pidx, tr⟩
          ctx).2.2.outputs.getD []).length = q.meta.output_count ∧
      (fetch_transaction_meta env ⟨q0, some q :: rest, pidx, tr⟩
          ctx).2.1.trace =
        tr ++ [Event.allocInputs q.meta.input_count,
          Event.allocOutputs q.meta.output_count,
          Event.sendResponse BTC_SIGN_TXN_RESPONSE_META_ACCEPTED_TAG]) := by
  constructor
  · intro hbad
    simp [fetch_transaction_meta, btc_get_query, check_which_request, ht,
      btc_send_error, emit, hbad]
  · intro h1 h2 h3
    simp [fetch_transaction_meta, btc_get_query, check_which_request, ht,
      send_response, emit, h1, h2, h3]


/-- Witness for C4: scenario 5 of the spec — metadata declaring sighash 0 is
rejected at the META phase with no allocation. -/
theorem fetch_transaction_meta_spec_witness :
    (fetch_transaction_meta baseEnv ⟨initQ, [some badMetaQ], 0, []⟩
        ctxZero).1 = false ∧
    (fetch_transaction_meta baseEnv ⟨initQ, [some badMetaQ], 0, []⟩
        ctxZero).2.2 = ctxZero ∧
    (fetch_transaction_meta baseEnv ⟨initQ, [some badMetaQ], 0, []⟩
        ctxZero).2.1.trace =
      [Event.sendError ERROR_COMMON_ERROR_CORRUPT_DATA_TAG
        ERROR_DATA_FLOW_INVALID_DATA] :=
  (fetch_transaction_meta_spec baseEnv ctxZero badMetaQ [] initQ 0 []
    (by decide)).1 (by decide)

/-- C6.  If the sum of the context's output values exceeds the sum of its
input values (the fee underflows), `get_user_verification` returns failure —
for every environment, so such a transaction can never pass the VERIFY
phase — and whenever the receiver-display loop was accepted it also sends
the CORRUPT_DATA/INVALID_DATA error. -/
theorem get_user_verification_rejects_overspend (env : Env) (st : FlowState)
    (ctx : btc_txn_context_t)
    (hov : ((ctx.inputs.getD []).map btc_txn_input_t.value).sum <
      ((ctx.outputs.getD []).map btc_sign_txn_output_t.value).sum) :
    (get_user_verification env st ctx).1 = false ∧
    ((show_outputs_loop env ctx (List.range ctx.metadata.output_count)
        st).1 = true →
      (get_user_verification env st ctx).2.trace =
        ((show_outputs_loop env ctx (List.range ctx.metadata.output_count)
            st).2).trace ++
          [Event.sendError ERROR_COMMON_ERROR_CORRUPT_DATA_TAG
            ERROR_DATA_FLOW_INVALID_DATA]) := by
  have hfee : btc_get_txn_fee ctx = none := by
    simp [btc_get_txn_fee, hov]
  rcases hL : show_outputs_loop env ctx (List.range ctx.metadata.output_count)
    st with ⟨b, st2⟩
  cases b
  · refine ⟨?_, ?_⟩
    · simp [get_user_verification, hL]
    · intro hb
      simp at hb
  · refine ⟨?_, ?_⟩
    · simp [get_user_verification, hL, verify_fee, hfee]
    · intro _
      simp [get_user_verification, hL, verify_fee, hfee, btc_send_error, emit]


/-- Witness for C6: inputs sum 50, outputs sum 60 — the VERIFY phase fails
and reports INVALID_DATA. -/
theorem get_user_verification_rejects_overspend_witness :
    (get_user_verification baseEnv stEmpty ctxOverspend).1 = false ∧
    ((show_outputs_loop baseEnv ctxOverspend
        (List.range ctxOverspend.metadata.output_count) stEmpty).1 = true →
      (get_user_verification baseEnv stEmpty ctxOverspend).2.trace =
        ((show_outputs_loop baseEnv ctxOverspend
            (List.range ctxOverspend.metadata.output_count)
            stEmpty).2).trace ++
          [Event.sendError ERROR_COMMON_ERROR_CORRUPT_DATA_TAG
            ERROR_DATA_FLOW_INVALID_DATA]) :=
  get_user_verification_rejects_overspend baseEnv stEmpty ctxOverspend
    (by decide)

/-- C7.  Once the receiver-display loop has been accepted,
`get_user_verification` continues as the fee tail `verify_fee`, and for any
state: when the fee exceeds the policy ceiling, the high-fee warning prompt
is emitted first and the final fee confirmation follows exactly when the
warning was accepted; when the fee does not exceed the ceiling, the fee
confirmation alone is emitted; in both cases the function returns success
iff every presented prompt was accepted, so declining either prompt makes
it return failure. -/
theorem high_fee_warning_precedes_fee_confirmation (env : Env)
    (st : FlowState) (ctx : btc_txn_context_t) (fee : Nat)
    (hfee : btc_get_txn_fee ctx = some fee)
    (hloop : (show_outputs_loop env ctx
      (List.range ctx.metadata.output_count) st).1 = true) :
    get_user_verification env st ctx =
      verify_fee env ((show_outputs_loop env ctx
        (List.range ctx.metadata.output_count) st).2) ctx ∧
    ∀ st2 : FlowState,
      (fee > env.get_transaction_fee_threshold ctx →
        (verify_fee env st2 ctx).2.trace =
          st2.trace ++
            (Event.confirm UIItem.highFeeWarning (env.user st2.promptIdx) ::
              (if env.user st2.promptIdx then
                [Event.scroll (UIItem.feeDisplay fee)
                  (env.user (st2.promptIdx + 1))]
              else [])) ∧
        ((verify_fee env st2 ctx).1 = true ↔
          env.user st2.promptIdx = true ∧
          env.user (st2.promptIdx + 1) = true)) ∧
      (fee ≤ env.get_transaction_fee_threshold ctx →
        (verify_fee env st2 ctx).2.trace =
          st2.trace ++
            [Event.scroll (UIItem.feeDisplay fee) (env.user st2.promptIdx)] ∧
        ((verify_fee env st2 ctx).1 = true ↔
          env.user st2.promptIdx = true)) := by
  constructor
  · rcases hL : show_outputs_loop env ctx
      (List.range ctx.metadata.output_count) st with ⟨b, st2⟩
    rw [hL] at hloop
    simp at hloop
    subst hloop
    simp [get_user_verification, hL]
  · intro st2
    constructor
    · intro hgt
      have hle : ¬ fee ≤ env.get_transaction_fee_threshold ctx := by omega
      cases hu : env.user st2.promptIdx with
      | false =>
        simp [verify_fee, hfee, hgt, hle, core_confirmation,
          core_scroll_page, emit, hu]
      | true =>
        cases hu2 : env.user (st2.promptIdx + 1) with
        | false =>
          simp [verify_fee, hfee, hgt, hle, core_confirmation,
            core_scroll_page, emit, hu, hu2]
        | true =>
          simp [verify_fee, hfee, hgt, hle, core_confirmation,
            core_scroll_page, emit, hu, hu2]
    · intro hle
      have hgt : ¬ fee > env.get_transaction_fee_threshold ctx := by omega
      cases hu : env.user st2.promptIdx with
      | false =>
        simp [verify_fee, hfee, hgt, core_confirmation, core_scroll_page,
          emit, hu]
      | true =>
        simp [verify_fee, hfee, hgt, core_confirmation, core_scroll_page,
          emit, hu]


/-- Witness for C7: with fee 100 above the ceiling 10 the high-fee warning
comes first and the fee confirmation follows exactly when the warning is
accepted. -/
theorem high_fee_warning_precedes_fee_confirmation_witness :
    (verify_fee envHighFee stEmpty ctxFee).2.trace =
      stEmpty.trace ++
        (Event.confirm UIItem.highFeeWarning
            (envHighFee.user stEmpty.promptIdx) ::
          (if envHighFee.user stEmpty.promptIdx then
            [Event.scroll (UIItem.feeDisplay 100)
              (envHighFee.user (stEmpty.promptIdx + 1))]
          else [])) ∧
    ((verify_fee envHighFee stEmpty ctxFee).1 = true ↔
      envHighFee.user stEmpty.promptIdx = true ∧
      envHighFee.user (stEmpty.promptIdx + 1) = true) :=
  ((high_fee_warning_precedes_fee_confirmation envHighFee stEmpty ctxFee 100
    (by decide) (by decide)).2 stEmpty).1 (by decide)

/-! ## Trace-structure lemmas for the VERIFY phase (used by C8) -/

/-- Every event the receiver-display loop appends is a scrolling display of
the address or the value of some non-change output whose index is in the
iterated list, and on a successful loop every such display was accepted. -/
theorem show_outputs_loop_trace (env : Env) (ctx : btc_txn_context_t) :
    ∀ (idxs : List Nat) (st : FlowState),
      ∃ tl, ((show_outputs_loop env ctx idxs st).2).trace = st.trace ++ tl ∧
        (∀ e ∈ tl, ∃ j, j ∈ idxs ∧ (output_at ctx j).is_change = false ∧
          ((∃ d, e = Event.scroll (UIItem.receiverAddr (j + 1)
              (output_at ctx j).script_pub_key) d) ∨
           (∃ d, e = Event.scroll (UIItem.receiverValue (j + 1)
              (output_at ctx j).value) d))) ∧
        ((show_outputs_loop env ctx idxs st).1 = true →
          ∀ e ∈ tl, ∀ it d, e = Event.scroll it d → d = true) := by
  intro idxs
  induction idxs with
  | nil =>
    intro st
    exact ⟨[], by simp [show_outputs_loop], by simp, by simp⟩
  | cons idx rest ih =>
    intro st
    by_cases hc : (output_at ctx idx).is_change
    · obtain ⟨tl, h1, h2, h3⟩ := ih st
      refine ⟨tl, ?_, ?_, ?_⟩
      · simpa [show_outputs_loop, hc] using h1
      · intro e he
        obtain ⟨j, hj, hjc, hsh⟩ := h2 e he
        exact ⟨j, List.mem_cons_of_mem _ hj, hjc, hsh⟩
      · intro hres
        apply h3
        simpa [show_outputs_loop, hc] using hres
    · rw [Bool.not_eq_true] at hc
      cases hu : env.user st.promptIdx with
      | false =>
        refine ⟨[Event.scroll (UIItem.receiverAddr (idx + 1)
          (output_at ctx idx).script_pub_key) false], ?_, ?_, ?_⟩
        · simp [show_outputs_loop, hc, core_scroll_page, emit, hu]
        · intro e he
          simp only [List.mem_singleton] at he
          exact ⟨idx, List.mem_cons_self _ _, hc, Or.inl ⟨false, he⟩⟩
        · intro hres
          simp [show_outputs_loop, hc, core_scroll_page, hu] at hres
      | true =>
        cases hu2 : env.user (st.promptIdx + 1) with
        | false =>
          refine ⟨[Event.scroll (UIItem.receiverAddr (idx + 1)
              (output_at ctx idx).script_pub_key) true,
            Event.scroll (UIItem.receiverValue (idx + 1)
              (output_at ctx idx).value) false], ?_, ?_, ?_⟩
          · simp [show_outputs_loop, hc, core_scroll_page, emit, hu, hu2]
          · intro e he
            simp only [List.mem_cons, List.not_mem_nil, or_false] at he
            rcases he with he | he
            · exact ⟨idx, List.mem_cons_self _ _, hc, Or.inl ⟨true, he⟩⟩
            · exact ⟨idx, List.mem_cons_self _ _, hc, Or.inr ⟨false, he⟩⟩
          · intro hres
            simp [show_outputs_loop, hc, core_scroll_page, emit, hu, hu2]
              at hres
        | true =>
          have key : show_outputs_loop env ctx (idx :: rest) st =
              show_outputs_loop env ctx rest
                { query := st.query, msgs := st.msgs,
                  promptIdx := st.promptIdx + 1 + 1,
                  trace := st.trace ++
                    [Event.scroll (UIItem.receiverAddr (idx + 1)
                      (output_at ctx idx).script_pub_key) true,
                     Event.scroll (UIItem.receiverValue (idx + 1)
                      (output_at ctx idx).value) true] } := by
            simp [show_outputs_loop, hc, core_scroll_page, emit, hu, hu2]
          obtain ⟨tl, h1, h2, h3⟩ := ih
            { query := st.query, msgs := st.msgs,
              promptIdx := st.promptIdx + 1 + 1,
              trace := st.trace ++
                [Event.scroll (UIItem.receiverAddr (idx + 1)
                  (output_at ctx idx).script_pub_key) true,
                 Event.scroll (UIItem.receiverValue (idx + 1)
                  (output_at ctx idx).value) true] }
          refine ⟨Event.scroll (UIItem.receiverAddr (idx + 1)
              (output_at ctx idx).script_pub_key) true ::
            Event.scroll (UIItem.receiverValue (idx + 1)
              (output_at ctx idx).value) true :: tl, ?_, ?_, ?_⟩
          · rw [key, h1]
            simp
          · intro e he
            simp only [List.mem_cons] at he
            rcases he with he | he | he
            · exact ⟨idx, List.mem_cons_self _ _, hc, Or.inl ⟨true, he⟩⟩
            · exact ⟨idx, List.mem_cons_self _ _, hc, Or.inr ⟨true, he⟩⟩
            · obtain ⟨j, hj, hjc, hsh⟩ := h2 e he
              exact ⟨j, List.mem_cons_of_mem _ hj, hjc, hsh⟩
          · intro hres e he it d hed
            rw [key] at hres
            simp only [List.mem_cons] at he
            rcases he with he | he | he
            · subst he
              simp only [Event.scroll.injEq] at hed
              exact hed.2.symm
            · subst he
              simp only [Event.scroll.injEq] at hed
              exact hed.2.symm
            · exact h3 hres e he it d hed

/-- On a successful receiver-display loop, every non-change output in the
iterated list had its address and its value displayed and accepted. -/
theorem show_outputs_loop_shows (env : Env) (ctx : btc_txn_context_t) :
    ∀ (idxs : List Nat) (st : FlowState),
      (show_outputs_loop env ctx idxs st).1 = true →
      ∀ i ∈ idxs, (output_at ctx i).is_change = false →
        Event.scroll (UIItem.receiverAddr (i + 1)
            (output_at ctx i).script_pub_key) true ∈
          ((show_outputs_loop env ctx idxs st).2).trace ∧
        Event.scroll (UIItem.receiverValue (i + 1)
            (output_at ctx i).value) true ∈
          ((show_outputs_loop env ctx idxs st).2).trace := by
  intro idxs
  induction idxs with
  | nil =>
    intro st _ i hi
    exact absurd hi (List.not_mem_nil i)
  | cons idx rest ih =>
    intro st hres i hi hic
    by_cases hc : (output_at ctx idx).is_change
    · have key : show_outputs_loop env ctx (idx :: rest) st =
          show_outputs_loop env ctx rest st := by
        simp [show_outputs_loop, hc]
      rcases List.mem_cons.mp hi with rfl | hi2
      · rw [hic] at hc
        cases hc
      · rw [key] at hres ⊢
        exact ih st hres i hi2 hic
    · rw [Bool.not_eq_true] at hc
      cases hu : env.user st.promptIdx with
      | false =>
        simp [show_outputs_loop, hc, core_scroll_page, emit, hu] at hres
      | true =>
        cases hu2 : env.user (st.promptIdx + 1) with
        | false =>
          simp [show_outputs_loop, hc, core_scroll_page, emit, hu, hu2]
            at hres
        | true =>
          have key : show_outputs_loop env ctx (idx :: rest) st =
              show_outputs_loop env ctx rest
                { query := st.query, msgs := st.msgs,
                  promptIdx := st.promptIdx + 1 + 1,
                  trace := st.trace ++
                    [Event.scroll (UIItem.receiverAddr (idx + 1)
                      (output_at ctx idx).script_pub_key) true,
                     Event.scroll (UIItem.receiverValue (idx + 1)
                      (output_at ctx idx).value) true] } := by
            simp [show_outputs_loop, hc, core_scroll_page, emit, hu, hu2]
          rw [key] at hres ⊢
          rcases List.mem_cons.mp hi with rfl | hi2
          · obtain ⟨tl, h1, -, -⟩ := show_outputs_loop_trace env ctx rest
              { query := st.query, msgs := st.msgs,
                promptIdx := st.promptIdx + 1 + 1,
                trace := st.trace ++
                  [Event.scroll (UIItem.receiverAddr (i + 1)
                    (output_at ctx i).script_pub_key) true,
                   Event.scroll (UIItem.receiverValue (i + 1)
                    (output_at ctx i).value) true] }
            rw [h1]
            constructor
            · simp
            · simp
          · exact ih _ hres i hi2 hic

/-- The fee tail appends only the overspend error, the high-fee warning and
the fee display, and on success every prompt it appended was accepted. -/
theorem verify_fee_trace (env : Env) (st : FlowState)
    (ctx : btc_txn_context_t) :
    ∃ tl, ((verify_fee env st ctx).2).trace = st.trace ++ tl ∧
      (∀ e ∈ tl,
        e = Event.sendError ERROR_COMMON_ERROR_CORRUPT_DATA_TAG
          ERROR_DATA_FLOW_INVALID_DATA ∨
        (∃ d, e = Event.confirm UIItem.highFeeWarning d) ∨
        (∃ f d, e = Event.scroll (UIItem.feeDisplay f) d)) ∧
      ((verify_fee env st ctx).1 = true →
        ∀ e ∈ tl, ∀ it d,
          (e = Event.scroll it d ∨ e = Event.confirm it d) → d = true) := by
  cases hf : btc_get_txn_fee ctx with
  | none =>
    refine ⟨[Event.sendError ERROR_COMMON_ERROR_CORRUPT_DATA_TAG
      ERROR_DATA_FLOW_INVALID_DATA], ?_, ?_, ?_⟩
    · simp [verify_fee, hf, btc_send_error, emit]
    · intro e he
      simp only [List.mem_singleton] at he
      exact Or.inl he
    · intro hres
      simp [verify_fee, hf] at hres
  | some fee =>
    by_cases hgt : fee > env.get_transaction_fee_threshold ctx
    · cases hu : env.user st.promptIdx with
      | false =>
        refine ⟨[Event.confirm UIItem.highFeeWarning false], ?_, ?_, ?_⟩
        · simp [verify_fee, hf, hgt, core_confirmation, emit, hu]
        · intro e he
          simp only [List.mem_singleton] at he
          exact Or.inr (Or.inl ⟨false, he⟩)
        · intro hres
          simp [verify_fee, hf, hgt, core_confirmation, emit, hu] at hres
      | true =>
        cases hu2 : env.user (st.promptIdx + 1) with
        | false =>
          refine ⟨[Event.confirm UIItem.highFeeWarning true,
            Event.scroll (UIItem.feeDisplay fee) false], ?_, ?_, ?_⟩
          · simp [verify_fee, hf, hgt, core_confirmation, core_scroll_page,
              emit, hu, hu2]
          · intro e he
            simp only [List.mem_cons, List.not_mem_nil, or_false] at he
            rcases he with he | he
            · exact Or.inr (Or.inl ⟨true, he⟩)
            · exact Or.inr (Or.inr ⟨fee, false, he⟩)
          · intro hres
            simp [verify_fee, hf, hgt, core_confirmation, core_scroll_page,
              emit, hu, hu2] at hres
        | true =>
          refine ⟨[Event.confirm UIItem.highFeeWarning true,
            Event.scroll (UIItem.feeDisplay fee) true], ?_, ?_, ?_⟩
          · simp [verify_fee, hf, hgt, core_confirmation, core_scroll_page,
              emit, hu, hu2]
          · intro e he
            simp only [List.mem_cons, List.not_mem_nil, or_false] at he
            rcases he with he | he
            · exact Or.inr (Or.inl ⟨true, he⟩)
            · exact Or.inr (Or.inr ⟨fee, true, he⟩)
          · intro _ e he it d hed
            simp only [List.mem_cons, List.not_mem_nil, or_false] at he
            rcases he with he | he <;> subst he
            · rcases hed with hed | hed
              · exact absurd hed (by simp)
              · simp only [Event.confirm.injEq] at hed
                exact hed.2.symm
            · rcases hed with hed | hed
              · simp only [Event.scroll.injEq] at hed
                exact hed.2.symm
              · exact absurd hed (by simp)
    · cases hu : env.user st.promptIdx with
      | false =>
        refine ⟨[Event.scroll (UIItem.feeDisplay fee) false], ?_, ?_, ?_⟩
        · simp [verify_fee, hf, hgt, core_scroll_page, emit, hu]
        · intro e he
          simp only [List.mem_singleton] at he
          exact Or.inr (Or.inr ⟨fee, false, he⟩)
        · intro hres
          simp [verify_fee, hf, hgt, core_scroll_page, emit, hu] at hres
      | true =>
        refine ⟨[Event.scroll (UIItem.feeDisplay fee) true], ?_, ?_, ?_⟩
        · simp [verify_fee, hf, hgt, core_scroll_page, emit, hu]
        · intro e he
          simp only [List.mem_singleton] at he
          exact Or.inr (Or.inr ⟨fee, true, he⟩)
        · intro _ e he it d hed
          simp only [List.mem_singleton] at he
          subst he
          rcases hed with hed | hed
          · simp only [Event.scroll.injEq] at hed
            exact hed.2.symm
          · exact absurd hed (by simp)

/-- C8.  In `get_user_verification`, starting from an empty trace:
(1)/(2) no display event (address or amount) is ever emitted for an output
whose `is_change` flag is true; (3) on success, every output in range whose
`is_change` flag is false had its script (formatted as an address) and its
value (formatted as an amount) presented via the scrolling display and
accepted; (4) on success every presented prompt was accepted, i.e. a
declined prompt forces the failure result. -/
theorem get_user_verification_display_policy (env : Env) (st : FlowState)
    (ctx : btc_txn_context_t) (h0 : st.trace = []) :
    (∀ i s d, (output_at ctx i).is_change = true →
      Event.scroll (UIItem.receiverAddr (i + 1) s) d ∉
        (get_user_verification env st ctx).2.trace) ∧
    (∀ i v d, (output_at ctx i).is_change = true →
      Event.scroll (UIItem.receiverValue (i + 1) v) d ∉
        (get_user_verification env st ctx).2.trace) ∧
    ((get_user_verification env st ctx).1 = true →
      ∀ i ∈ List.range ctx.metadata.output_count,
        (output_at ctx i).is_change = false →
        Event.scroll (UIItem.receiverAddr (i + 1)
            (output_at ctx i).script_pub_key) true ∈
          (get_user_verification env st ctx).2.trace ∧
        Event.scroll (UIItem.receiverValue (i + 1)
            (output_at ctx i).value) true ∈
          (get_user_verification env st ctx).2.trace) ∧
    ((get_user_verification env st ctx).1 = true →
      ∀ it d,
        (Event.scroll it d ∈ (get_user_verification env st ctx).2.trace ∨
         Event.confirm it d ∈ (get_user_verification env st ctx).2.trace) →
        d = true) := by
  obtain ⟨tl1, ht1, hcl1, hacc1⟩ := show_outputs_loop_trace env ctx
    (List.range ctx.metadata.output_count) st
  rcases hL : show_outputs_loop env ctx
    (List.range ctx.metadata.output_count) st with ⟨b, st2⟩
  rw [hL] at ht1 hacc1
  simp only at ht1 hacc1
  rw [h0] at ht1
  simp only [List.nil_append] at ht1
  have hnoAddr : ∀ i s d, (output_at ctx i).is_change = true →
      Event.scroll (UIItem.receiverAddr (i + 1) s) d ∉ tl1 := by
    intro i s d hchg hmem
    obtain ⟨j, hj, hjc, hsh⟩ := hcl1 _ hmem
    rcases hsh with ⟨d', he⟩ | ⟨d', he⟩
    · simp only [Event.scroll.injEq, UIItem.receiverAddr.injEq] at he
      have : i = j := by omega
      rw [← this] at hjc
      rw [hchg] at hjc
      cases hjc
    · exact absurd he (by simp)
  have hnoVal : ∀ i v d, (output_at ctx i).is_change = true →
      Event.scroll (UIItem.receiverValue (i + 1) v) d ∉ tl1 := by
    intro i v d hchg hmem
    obtain ⟨j, hj, hjc, hsh⟩ := hcl1 _ hmem
    rcases hsh with ⟨d', he⟩ | ⟨d', he⟩
    · exact absurd he (by simp)
    · simp only [Event.scroll.injEq, UIItem.receiverValue.injEq] at he
      have : i = j := by omega
      rw [← this] at hjc
      rw [hchg] at hjc
      cases hjc
  cases b with
  | false =>
    have hg : get_user_verification env st ctx = (false, st2) := by
      simp [get_user_verification, hL]
    rw [hg]
    refine ⟨?_, ?_, ?_, ?_⟩
    · intro i s d hchg
      rw [ht1]
      exact hnoAddr i s d hchg
    · intro i v d hchg
      rw [ht1]
      exact hnoVal i v d hchg
    · intro hres
      cases hres
    · intro hres
      cases hres
  | true =>
    have hg : get_user_verification env st ctx = verify_fee env st2 ctx := by
      simp [get_user_verification, hL]
    obtain ⟨tl2, ht2, hcl2, hacc2⟩ := verify_fee_trace env st2 ctx
    rw [ht1] at ht2
    rw [hg]
    have hnoFee1 : ∀ i n s (d : Bool),
        Event.scroll (UIItem.receiverAddr (i + 1) s) d ∉ tl2 ∧
        Event.scroll (UIItem.receiverValue (i + 1) n) d ∉ tl2 := by
      intro i n s d
      constructor
      · intro hmem
        rcases hcl2 _ hmem with he | ⟨d', he⟩ | ⟨f, d', he⟩
        · exact absurd he (by simp)
        · exact absurd he (by simp)
        · exact absurd he (by simp)
      · intro hmem
        rcases hcl2 _ hmem with he | ⟨d', he⟩ | ⟨f, d', he⟩
        · exact absurd he (by simp)
        · exact absurd he (by simp)
        · exact absurd he (by simp)
    refine ⟨?_, ?_, ?_, ?_⟩
    · intro i s d hchg hmem
      rw [ht2] at hmem
      rcases List.mem_append.mp hmem with hm | hm
      · exact hnoAddr i s d hchg hm
      · exact (hnoFee1 i 0 s d).1 hm
    · intro i v d hchg hmem
      rw [ht2] at hmem
      rcases List.mem_append.mp hmem with hm | hm
      · exact hnoVal i v d hchg hm
      · exact (hnoFee1 i v default d).2 hm
    · intro hres i hi hic
      have hs := show_outputs_loop_shows env ctx
        (List.range ctx.metadata.output_count) st (by rw [hL]) i hi hic
      rw [hL] at hs
      simp only at hs
      rw [ht2]
      exact ⟨List.mem_append_left _ (ht1 ▸ hs.1),
        List.mem_append_left _ (ht1 ▸ hs.2)⟩
    · intro hres it d hmem
      have hloopT : (show_outputs_loop env ctx
          (List.range ctx.metadata.output_count) st).1 = true := by
        rw [hL]
      rcases hmem with hm | hm
      · rw [ht2] at hm
        rcases List.mem_append.mp hm with hm2 | hm2
        · exact hacc1 rfl _ hm2 it d rfl
        · exact hacc2 hres _ hm2 it d (Or.inl rfl)
      · rw [ht2] at hm
        rcases List.mem_append.mp hm with hm2 | hm2
        · obtain ⟨j, hj, hjc, hsh⟩ := hcl1 _ hm2
          rcases hsh with ⟨d', he⟩ | ⟨d', he⟩
          · exact absurd he (by simp)
          · exact absurd he (by simp)
        · exact hacc2 hres _ hm2 it d (Or.inr rfl)


/-- Witness for C8: on scenario 1 the receiver output's address and amount
are displayed and the change output is not displayed. -/
theorem get_user_verification_display_policy_witness :
    Event.scroll (UIItem.receiverAddr (0 + 1)
        (output_at ctxShow 0).script_pub_key) true ∈
      (get_user_verification baseEnv stEmpty ctxShow).2.trace ∧
    Event.scroll (UIItem.receiverValue (0 + 1) (output_at ctxShow 0).value)
        true ∈
      (get_user_verification baseEnv stEmpty ctxShow).2.trace ∧
    Event.scroll (UIItem.receiverAddr (1 + 1) ⟨22, List.replicate 22 4⟩)
        true ∉ (get_user_verification baseEnv stEmpty ctxShow).2.trace :=
  ⟨((get_user_verification_display_policy baseEnv stEmpty ctxShow rfl).2.2.1
      (by decide) 0 (by decide) (by decide)).1,
   ((get_user_verification_display_policy baseEnv stEmpty ctxShow rfl).2.2.1
      (by decide) 0 (by decide) (by decide)).2,
   (get_user_verification_display_policy baseEnv stEmpty ctxShow rfl).1 1
      ⟨22, List.replicate 22 4⟩ true (by decide)⟩

/-! ## No-signature-response lemmas (used by C9) -/


theorem no_sig_append {tr : List Event} {e : Event}
    (h : no_sig_response tr)
    (he : e ≠ Event.sendResponse BTC_SIGN_TXN_RESPONSE_SIGNATURE_TAG) :
    no_sig_response (tr ++ [e]) := by
  intro hmem
  rcases List.mem_append.mp hmem with hm | hm
  · exact h hm
  · rw [List.mem_singleton] at hm
    exact he hm.symm

theorem check_which_request_no_sig (st : FlowState) (w : Nat)
    (h : no_sig_response st.trace) :
    no_sig_response ((check_which_request st w).2).trace := by
  unfold check_which_request
  split
  · exact no_sig_append h (by decide)
  · exact h

theorem validate_request_data_no_sig (env : Env) (st : FlowState)
    (h : no_sig_response st.trace) :
    no_sig_response ((validate_request_data env st).2).trace := by
  unfold validate_request_data
  split
  · exact h
  · exact no_sig_append h (by decide)

theorem btc_get_query_no_sig (st : FlowState)
    (h : no_sig_response st.trace) :
    no_sig_response ((btc_get_query st).2).trace := by
  unfold btc_get_query
  split
  · exact h
  · exact h
  · exact h

theorem core_confirmation_no_sig (env : Env) (st : FlowState) (it : UIItem)
    (h : no_sig_response st.trace) :
    no_sig_response ((core_confirmation env st it).2).trace :=
  no_sig_append h (by simp)

theorem core_scroll_page_no_sig (env : Env) (st : FlowState) (it : UIItem)
    (h : no_sig_response st.trace) :
    no_sig_response ((core_scroll_page env st it).2).trace :=
  no_sig_append h (by simp)

theorem send_response_no_sig (st : FlowState) (w : Nat)
    (hw : w ≠ BTC_SIGN_TXN_RESPONSE_SIGNATURE_TAG)
    (h : no_sig_response st.trace) :
    no_sig_response (send_response st w).trace :=
  no_sig_append h (by simpa using hw)

theorem btc_send_error_no_sig (st : FlowState) (a b : Nat)
    (h : no_sig_response st.trace) :
    no_sig_response (btc_send_error st a b).trace :=
  no_sig_append h (by simp)

theorem handle_initiate_query_no_sig (env : Env) (st : FlowState)
    (ctx : btc_txn_context_t) (h : no_sig_response st.trace) :
    no_sig_response ((handle_initiate_query env st ctx).2.1).trace := by
  simp only [handle_initiate_query]
  have h1 := check_which_request_no_sig st
    BTC_SIGN_TXN_REQUEST_INITIATE_TAG h
  split
  · exact h1
  · have h2 := validate_request_data_no_sig env _ h1
    split
    · exact h2
    · split
      · exact h2
      · have h3 := core_confirmation_no_sig env _ UIItem.sendPrompt h2
        split
        · exact h3
        · exact send_response_no_sig _ _ (by decide)
            (no_sig_append h3 (by simp))

theorem fetch_transaction_meta_no_sig (env : Env) (st : FlowState)
    (ctx : btc_txn_context_t) (h : no_sig_response st.trace) :
    no_sig_response ((fetch_transaction_meta env st ctx).2.1).trace := by
  simp only [fetch_transaction_meta]
  have h1 := btc_get_query_no_sig st h
  split
  · exact h1
  · have h2 := check_which_request_no_sig _
      BTC_SIGN_TXN_REQUEST_META_TAG h1
    split
    · exact h2
    · split
      · exact btc_send_error_no_sig _ _ _ h2
      · exact send_response_no_sig _ _ (by decide)
          (no_sig_append (no_sig_append h2 (by simp)) (by simp))

theorem no_sig_emit (st : FlowState) (e : Event)
    (h : no_sig_response st.trace)
    (he : e ≠ Event.sendResponse BTC_SIGN_TXN_RESPONSE_SIGNATURE_TAG) :
    no_sig_response (emit st e).trace :=
  no_sig_append h he

theorem fetch_valid_input_round_no_sig (env : Env) (st : FlowState)
    (ctx : btc_txn_context_t) (idx : Nat) (h : no_sig_response st.trace) :
    no_sig_response ((fetch_valid_input_round env st ctx idx).2.1).trace := by
  have h1 := btc_get_query_no_sig st h
  rcases hg : btc_get_query st with ⟨gb, gst⟩
  rw [hg] at h1
  cases gb with
  | true =>
    simp [fetch_valid_input_round, hg]
    split
    · exact btc_send_error_no_sig _ _ _ h1
    · exact send_response_no_sig _
        BTC_SIGN_TXN_RESPONSE_INPUT_ACCEPTED_TAG (by decide) h1
  | false =>
    have h2 := check_which_request_no_sig gst
      BTC_SIGN_TXN_REQUEST_INPUT_TAG h1
    rcases hc : check_which_request gst BTC_SIGN_TXN_REQUEST_INPUT_TAG
      with ⟨cb, cst⟩
    rw [hc] at h2
    cases cb with
    | false =>
      simp [fetch_valid_input_round, hg, hc]
      exact h2
    | true =>
      simp [fetch_valid_input_round, hg, hc]
      split
      · exact btc_send_error_no_sig _ _ _ h2
      · exact send_response_no_sig _
          BTC_SIGN_TXN_RESPONSE_INPUT_ACCEPTED_TAG (by decide) h2

theorem fetch_valid_input_loop_no_sig (env : Env) :
    ∀ (idxs : List Nat) (st : FlowState) (ctx : btc_txn_context_t),
      no_sig_response st.trace →
      no_sig_response ((fetch_valid_input_loop env idxs st ctx).2.1).trace
  | [], st, ctx, h => h
  | idx :: rest, st, ctx, h => by
    have hround := fetch_valid_input_round_no_sig env st ctx idx h
    rcases hr : fetch_valid_input_round env st ctx idx with ⟨b, st2, ctx2⟩
    rw [hr] at hround
    rw [fetch_valid_input_loop, hr]
    cases b
    · exact hround
    · exact fetch_valid_input_loop_no_sig env rest st2 ctx2 hround

theorem fetch_valid_input_no_sig (env : Env) (st : FlowState)
    (ctx : btc_txn_context_t) (h : no_sig_response st.trace) :
    no_sig_response ((fetch_valid_input env st ctx).2.1).trace :=
  fetch_valid_input_loop_no_sig env _ st ctx h

theorem fetch_valid_output_round_no_sig (env : Env) (st : FlowState)
    (ctx : btc_txn_context_t) (z : Bool) (idx : Nat)
    (h : no_sig_response st.trace) :
    no_sig_response
      ((fetch_valid_output_round env st ctx z idx).2.1).trace := by
  have h1 := btc_get_query_no_sig st h
  rcases hg : btc_get_query st with ⟨gb, gst⟩
  rw [hg] at h1
  cases gb with
  | true =>
    simp [fetch_valid_output_round, hg]
    split
    · exact btc_send_error_no_sig _ _ _ h1
    · exact send_response_no_sig _
        BTC_SIGN_TXN_RESPONSE_INPUT_ACCEPTED_TAG (by decide) h1
  | false =>
    have h2 := check_which_request_no_sig gst
      BTC_SIGN_TXN_REQUEST_OUTPUT_TAG h1
    rcases hc : check_which_request gst BTC_SIGN_TXN_REQUEST_OUTPUT_TAG
      with ⟨cb, cst⟩
    rw [hc] at h2
    cases cb with
    | false =>
      simp [fetch_valid_output_round, hg, hc]
      exact h2
    | true =>
      simp [fetch_valid_output_round, hg, hc]
      split
      · exact btc_send_error_no_sig _ _ _ h2
      · exact send_response_no_sig _
          BTC_SIGN_TXN_RESPONSE_INPUT_ACCEPTED_TAG (by decide) h2

theorem fetch_valid_output_loop_no_sig (env : Env) :
    ∀ (idxs : List Nat) (st : FlowState) (ctx : btc_txn_context_t)
      (z : Bool), no_sig_response st.trace →
      no_sig_response
        ((fetch_valid_output_loop env idxs st ctx z).2.1).trace
  | [], st, ctx, z, h => h
  | idx :: rest, st, ctx, z, h => by
    have hround := fetch_valid_output_round_no_sig env st ctx z idx h
    rcases hr : fetch_valid_output_round env st ctx z idx
      with ⟨b, st2, ctx2, z2⟩
    rw [hr] at hround
    rw [fetch_valid_output_loop, hr]
    cases b
    · exact hround
    · exact fetch_valid_output_loop_no_sig env rest st2 ctx2 z2 hround

theorem fetch_valid_output_no_sig (env : Env) (st : FlowState)
    (ctx : btc_txn_context_t) (h : no_sig_response st.trace) :
    no_sig_response ((fetch_valid_output env st ctx).2.1).trace := by
  have hloop := fetch_valid_output_loop_no_sig env
    (List.range ctx.metadata.output_count) st ctx true h
  rcases hr : fetch_valid_output_loop env
    (List.range ctx.metadata.output_count) st ctx true with ⟨b, st2, ctx2, z⟩
  rw [hr] at hloop
  unfold fetch_valid_output
  rw [hr]
  cases b
  · exact hloop
  · cases z
    · exact hloop
    · exact btc_send_error_no_sig st2 ERROR_COMMON_ERROR_CORRUPT_DATA_TAG
        ERROR_DATA_FLOW_INVALID_DATA hloop

theorem show_outputs_loop_no_sig (env : Env) (ctx : btc_txn_context_t)
    (idxs : List Nat) (st : FlowState) (h : no_sig_response st.trace) :
    no_sig_response ((show_outputs_loop env ctx idxs st).2).trace := by
  obtain ⟨tl, h1, h2, -⟩ := show_outputs_loop_trace env ctx idxs st
  rw [no_sig_response, h1]
  intro hmem
  rcases List.mem_append.mp hmem with hm | hm
  · exact h hm
  · obtain ⟨j, -, -, hsh⟩ := h2 _ hm
    rcases hsh with ⟨d, he⟩ | ⟨d, he⟩ <;> exact absurd he (by simp)

theorem verify_fee_no_sig (env : Env) (st : FlowState)
    (ctx : btc_txn_context_t) (h : no_sig_response st.trace) :
    no_sig_response ((verify_fee env st ctx).2).trace := by
  obtain ⟨tl, h1, h2, -⟩ := verify_fee_trace env st ctx
  rw [no_sig_response, h1]
  intro hmem
  rcases List.mem_append.mp hmem with hm | hm
  · exact h hm
  · rcases h2 _ hm with he | ⟨d, he⟩ | ⟨f, d, he⟩ <;>
      exact absurd he (by simp)

theorem get_user_verification_no_sig (env : Env) (st : FlowState)
    (ctx : btc_txn_context_t) (h : no_sig_response st.trace) :
    no_sig_response ((get_user_verification env st ctx).2).trace := by
  have hloop := show_outputs_loop_no_sig env ctx
    (List.range ctx.metadata.output_count) st h
  rcases hL : show_outputs_loop env ctx
    (List.range ctx.metadata.output_count) st with ⟨b, st2⟩
  rw [hL] at hloop
  unfold get_user_verification
  rw [hL]
  cases b
  · exact hloop
  · exact verify_fee_no_sig env st2 ctx hloop

theorem sign_input_utxo_no_sig (env : Env) (st : FlowState)
    (h : no_sig_response st.trace) :
    no_sig_response ((sign_input_utxo env st).2).trace := by
  simp only [sign_input_utxo]
  have h1 := btc_get_query_no_sig st h
  split
  · exact h1
  · have h2 := check_which_request_no_sig _
      BTC_SIGN_TXN_REQUEST_SIGNATURE_TAG h1
    split
    · exact h2
    · exact h2

/-- C9.  The SIGN phase is a stub that always reports failure: for every
environment and state `sign_input_utxo` returns false, and consequently no
execution of `btc_sign_transaction` ever emits a signature response. -/
theorem sign_stub_never_signs :
    (∀ env st, (sign_input_utxo env st).1 = false) ∧
    (∀ env q0, Event.sendResponse BTC_SIGN_TXN_RESPONSE_SIGNATURE_TAG ∉
      (btc_sign_transaction env q0).1.trace) := by
  constructor
  · intro env st
    simp only [sign_input_utxo]
    split
    · rfl
    · split
      · rfl
      · rfl
  · intro env q0
    show no_sig_response (btc_sign_transaction env q0).1.trace
    simp only [btc_sign_transaction]
    have h0 : no_sig_response
        ({ query := q0, msgs := env.msgs, promptIdx := 0, trace := [] } :
          FlowState).trace := List.not_mem_nil _
    have h1 := no_sig_emit _ (Event.invoke Phase.initPhase) h0 (by simp)
    have hA := handle_initiate_query_no_sig env
      (emit { query := q0, msgs := env.msgs, promptIdx := 0, trace := [] }
        (Event.invoke Phase.initPhase))
      { init_info := default, metadata := ⟨0, 0, 0⟩, inputs := none,
        outputs := none } h1
    rcases hr1 : handle_initiate_query env
      (emit { query := q0, msgs := env.msgs, promptIdx := 0, trace := [] }
        (Event.invoke Phase.initPhase))
      { init_info := default, metadata := ⟨0, 0, 0⟩, inputs := none,
        outputs := none } with ⟨b1, s1, c1⟩
    rw [hr1] at hA
    try rw [hr1]
    cases b1 with
    | true => exact hA
    | false =>
    have h2 := no_sig_emit _ (Event.invoke Phase.metaPhase) hA (by simp)
    have hB := fetch_transaction_meta_no_sig env
      (emit s1 (Event.invoke Phase.metaPhase)) c1 h2
    rcases hr2 : fetch_transaction_meta env
      (emit s1 (Event.invoke Phase.metaPhase)) c1 with ⟨b2, s2, c2⟩
    rw [hr2] at hB
    try rw [hr2]
    cases b2 with
    | true => exact hB
    | false =>
    have h3 := no_sig_emit _ (Event.invoke Phase.inputsPhase) hB (by simp)
    have hC := fetch_valid_input_no_sig env
      (emit s2 (Event.invoke Phase.inputsPhase)) c2 h3
    rcases hr3 : fetch_valid_input env
      (emit s2 (Event.invoke Phase.inputsPhase)) c2 with ⟨b3, s3, c3⟩
    rw [hr3] at hC
    try rw [hr3]
    cases b3 with
    | true => exact hC
    | false =>
    have h4 := no_sig_emit _ (Event.invoke Phase.outputsPhase) hC (by simp)
    have hD := fetch_valid_output_no_sig env
      (emit s3 (Event.invoke Phase.outputsPhase)) c3 h4
    rcases hr4 : fetch_valid_output env
      (emit s3 (Event.invoke Phase.outputsPhase)) c3 with ⟨b4, s4, c4⟩
    rw [hr4] at hD
    try rw [hr4]
    cases b4 with
    | true => exact hD
    | false =>
    have h5 := no_sig_emit _ (Event.invoke Phase.verifyPhase) hD (by simp)
    have hE := get_user_verification_no_sig env
      (emit s4 (Event.invoke Phase.verifyPhase)) c4 h5
    rcases hr5 : get_user_verification env
      (emit s4 (Event.invoke Phase.verifyPhase)) c4 with ⟨b5, s5⟩
    rw [hr5] at hE
    try rw [hr5]
    cases b5 with
    | true => exact hE
    | false =>
    have h6 := no_sig_emit _ (Event.invoke Phase.signPhase) hE (by simp)
    have hF := sign_input_utxo_no_sig env
      (emit s5 (Event.invoke Phase.signPhase)) h6
    rcases hr6 : sign_input_utxo env
      (emit s5 (Event.invoke Phase.signPhase)) with ⟨b6, s6⟩
    rw [hr6] at hF
    try rw [hr6]
    cases b6 with
    | true => exact hF
    | false => exact no_sig_emit _ Event.delayScreen hF (by simp)

/-- Witness for C9 at a concrete environment and query. -/
theorem sign_stub_never_signs_witness :
    (sign_input_utxo baseEnv stEmpty).1 = false ∧
    Event.sendResponse BTC_SIGN_TXN_RESPONSE_SIGNATURE_TAG ∉
      (btc_sign_transaction baseEnv initQ).1.trace :=
  ⟨sign_stub_never_signs.1 baseEnv stEmpty,
   sign_stub_never_signs.2 baseEnv initQ⟩

end BtcTxn
